import Mathlib

/-!
# Verification of the web-transfer coordination hub

A shallow embedding of the server-side signaling/relay hub (`server/routes.ts`
and the in-memory storage `MemStorage`) and of the client-side chunking
pipeline (`client/src/lib/webrtc-utils.ts`, `use-webrtc.ts`), together with
theorems settling the behavioural claims about them.

JavaScript `Map<string, V>` values are embedded as association lists
(`List (String × V)`), `Set<string>` as `List String` with `List.insert` /
`List.erase`, timestamps (`Date.getTime()` milliseconds) as `Int`, and raw
byte payloads as `List Nat`.
-/

namespace WebTransfer

/-! ## JS `Map` operations on association lists -/

/-- `Map.get(k)`: the value of the first entry whose key is `k`. -/
def mapGet {α : Type} : List (String × α) → String → Option α
  | [], _ => none
  | p :: rest, k => if p.1 = k then some p.2 else mapGet rest k

/-- `Map.set(k, v)`: replace the value at an existing key in place, or append
a fresh entry. -/
def mapSet {α : Type} : List (String × α) → String → α → List (String × α)
  | [], k, v => [(k, v)]
  | p :: rest, k, v => if p.1 = k then (k, v) :: rest else p :: mapSet rest k v

/-- `Map.delete(k)`: remove the entry at key `k`, if any. -/
def mapDelete {α : Type} : List (String × α) → String → List (String × α)
  | [], _ => []
  | p :: rest, k => if p.1 = k then rest else p :: mapDelete rest k

/-- `Array.from(map.values())`. -/
def mapValues {α : Type} (m : List (String × α)) : List α :=
  m.map (·.2)

/-! ## Data model (`@shared/schema` as used by `MemStorage`) -/

/-- A device record of the Presence Registry. -/
structure Device where
  id : Nat
  deviceId : String
  name : String
  type : String
  status : String
  lastSeen : Int
  deriving DecidableEq, Repr

/-- A transfer record of the Transfer Store. -/
structure Transfer where
  id : Nat
  transferId : String
  fileName : String
  fileSize : Int
  fileType : String
  senderId : String
  receiverId : String
  status : String
  progress : Int
  createdAt : Int
  completedAt : Option Int
  deriving DecidableEq, Repr

/-- `InsertDevice`: the argument of `createDevice`.  `status` is optional and
defaulted via `insertDevice.status || 'available'`. -/
structure InsertDevice where
  deviceId : String
  name : String
  type : String
  status : Option String := none
  deriving DecidableEq, Repr

/-- `InsertTransfer`: the argument of `createTransfer`.  `status` and
`progress` are optional, defaulted via `|| 'pending'` and `|| 0`. -/
structure InsertTransfer where
  transferId : String
  fileName : String
  fileSize : Int
  fileType : String
  senderId : String
  receiverId : String
  status : Option String := none
  progress : Option Int := none
  deriving DecidableEq, Repr

/-- A `Partial<Device>` patch as passed by the route handlers (fields absent
from the object are not overwritten by the spread `{...device, ...updates}`). -/
structure DevicePatch where
  name : Option String := none
  type : Option String := none
  status : Option String := none
  deriving DecidableEq, Repr

/-- A `Partial<Transfer>` patch as passed by the route handlers. -/
structure TransferPatch where
  status : Option String := none
  progress : Option Int := none
  deriving DecidableEq, Repr

/-- The `MemStorage` instance state: two `Map`s and two id counters. -/
structure Storage where
  devices : List (String × Device)
  transfers : List (String × Transfer)
  deviceIdCounter : Nat
  transferIdCounter : Nat
  deriving DecidableEq, Repr

/-- `new MemStorage()`. -/
def Storage.empty : Storage :=
  { devices := [], transfers := [], deviceIdCounter := 1, transferIdCounter := 1 }

/-! ## `MemStorage` operations (each takes the current clock `now`) -/

/-- `MemStorage.getDevice`. -/
def getDevice (s : Storage) (deviceId : String) : Option Device :=
  mapGet s.devices deviceId

/-- `MemStorage.createDevice`. -/
def createDevice (s : Storage) (now : Int) (ins : InsertDevice) : Storage × Device :=
  let id := s.deviceIdCounter
  let device : Device :=
    { id := id
      deviceId := ins.deviceId
      name := ins.name
      type := ins.type
      status := ins.status.getD "available"
      lastSeen := now }
  ({ s with devices := mapSet s.devices device.deviceId device
            deviceIdCounter := s.deviceIdCounter + 1 }, device)

/-- `MemStorage.updateDevice`: spread the patch over the record and stamp
`lastSeen = now`; `undefined` when the device is missing. -/
def updateDevice (s : Storage) (now : Int) (deviceId : String) (upd : DevicePatch) :
    Storage × Option Device :=
  match mapGet s.devices deviceId with
  | none => (s, none)
  | some device =>
    let updatedDevice : Device :=
      { device with
        name := upd.name.getD device.name
        type := upd.type.getD device.type
        status := upd.status.getD device.status
        lastSeen := now }
    ({ s with devices := mapSet s.devices deviceId updatedDevice }, some updatedDevice)

/-- `MemStorage.getAvailableDevices`: every stored device that is not the
excluded caller, not `offline`, and whose `lastSeen` is strictly more recent
than five minutes before `now`. -/
def getAvailableDevices (s : Storage) (now : Int) (excludeDeviceId : Option String) :
    List Device :=
  let fiveMinutesAgo := now - 5 * 60 * 1000
  (mapValues s.devices).filter (fun device =>
    decide (some device.deviceId ≠ excludeDeviceId) &&
    decide (device.status ≠ "offline") &&
    decide (device.lastSeen > fiveMinutesAgo))

/-- `MemStorage.setDeviceOffline`: set `status = "offline"` in place when the
device exists, otherwise do nothing. -/
def setDeviceOffline (s : Storage) (deviceId : String) : Storage :=
  match mapGet s.devices deviceId with
  | none => s
  | some device =>
    { s with devices := mapSet s.devices deviceId { device with status := "offline" } }

/-- `MemStorage.getTransfer`. -/
def getTransfer (s : Storage) (transferId : String) : Option Transfer :=
  mapGet s.transfers transferId

/-- `MemStorage.createTransfer`: build the fresh record (status defaulted to
`pending`, progress to `0`, `completedAt = null`) and `Map.set` it, with no
check whether the transfer id is already in use. -/
def createTransfer (s : Storage) (now : Int) (ins : InsertTransfer) : Storage × Transfer :=
  let id := s.transferIdCounter
  let transfer : Transfer :=
    { id := id
      transferId := ins.transferId
      fileName := ins.fileName
      fileSize := ins.fileSize
      fileType := ins.fileType
      senderId := ins.senderId
      receiverId := ins.receiverId
      status := ins.status.getD "pending"
      progress := ins.progress.getD 0
      createdAt := now
      completedAt := none }
  ({ s with transfers := mapSet s.transfers transfer.transferId transfer
            transferIdCounter := s.transferIdCounter + 1 }, transfer)

/-- `MemStorage.updateTransfer`: spread the patch over the record;
`completedAt` becomes `now` exactly when the patch status is `"completed"` or
`"failed"`, and is otherwise preserved. -/
def updateTransfer (s : Storage) (now : Int) (transferId : String) (upd : TransferPatch) :
    Storage × Option Transfer :=
  match mapGet s.transfers transferId with
  | none => (s, none)
  | some transfer =>
    let updatedTransfer : Transfer :=
      { transfer with
        status := upd.status.getD transfer.status
        progress := upd.progress.getD transfer.progress
        completedAt :=
          if upd.status = some "completed" ∨ upd.status = some "failed" then some now
          else transfer.completedAt }
    ({ s with transfers := mapSet s.transfers transferId updatedTransfer },
      some updatedTransfer)

/-! ## Signaling and relay hub (`server/routes.ts`)

The hub is embedded as a step function over an explicit server state.  Only
the transfer-lifecycle WebSocket messages and the two relay endpoints are
modelled (the device-registration messages touch neither the Transfer Store
nor the relay sets).  The `setTimeout` retention callbacks of the source are
modelled as explicit expiry events so a run can interleave them anywhere. -/

/-- An entry of the relay buffer `fileTransfers`. -/
structure RelayEntry where
  file : List Nat
  fileName : String
  fileType : String
  relativePath : String
  uploadedAt : Int
  deriving DecidableEq, Repr

/-- A message the hub pushes over a WebSocket, tagged with the payload fields
that identify it. -/
inductive Msg where
  | transferOffer (transferId fileName : String) (fileSize : Int)
      (fileType senderId receiverId : String)
  | transferAnswer (transferId : String) (accepted : Bool)
  | transferProgress (transferId : String) (progress : Int)
  | transferComplete (transferId : String)
  | transferError (transferId : String)
  deriving DecidableEq, Repr

/-- An event the hub processes.  The `ws…` events are inbound WebSocket
messages; `uploadBody` is the `req.on('end')` path of the upload endpoint
(the full body has been received); `downloadReq` is a download request;
the three `…Expiry` events are the `setTimeout` callbacks that clear
`processedUploads` (30 s), `notifiedTransfers` (30 s) and the
buffer/acceptance entries 60 s after a download. -/
inductive Event where
  | wsTransferOffer (transferId fileName : String) (fileSize : Int)
      (fileType senderId receiverId : String)
  | wsTransferAnswer (transferId : String) (accepted : Bool)
  | wsTransferProgress (transferId : String) (progress : Int)
  | wsTransferComplete (transferId : String)
  | wsTransferError (transferId : String)
  | uploadBody (transferId fileName fileType : String) (relativePath : Option String)
      (body : List Nat)
  | downloadReq (transferId : String)
  | processedExpiry (transferId : String)
  | notifiedExpiry (transferId : String)
  | downloadExpiry (transferId : String)
  deriving DecidableEq, Repr

/-- The hub state: the storage instance, the connected-client map (modelled
as the list of device ids with an open socket), the relay buffer, the three
de-duplication and authorization sets, and the log of messages pushed to
clients (`outbox`, recipient device id paired with the message). -/
structure ServerState where
  storage : Storage
  connected : List String
  fileTransfers : List (String × RelayEntry)
  processedUploads : List String
  notifiedTransfers : List String
  acceptedTransfers : List String
  outbox : List (String × Msg)
  deriving DecidableEq, Repr

/-- The hub right after `registerRoutes`, with the given clients connected. -/
def ServerState.init (connected : List String) : ServerState :=
  { storage := Storage.empty
    connected := connected
    fileTransfers := []
    processedUploads := []
    notifiedTransfers := []
    acceptedTransfers := []
    outbox := [] }

/-- Forward a message to a device: appended to the outbox when the device has
an open connection, silently dropped otherwise. -/
def forward (s : ServerState) (deviceId : String) (m : Msg) : List (String × Msg) :=
  if deviceId ∈ s.connected then s.outbox ++ [(deviceId, m)] else s.outbox

/-- The upload endpoint's response body (`{success, message?}`). -/
structure UploadRes where
  success : Bool
  message : Option String := none
  deriving DecidableEq, Repr

/-- `POST /api/transfer/:transferId/upload`, the `req.on('end')` path: an
already-processed id returns success immediately; otherwise the body is
stored in the relay buffer, the transfer is marked completed, and — unless
the id was already notified — a single `transfer-complete` is pushed to the
receiver's connection. -/
def handleUpload (s : ServerState) (now : Int) (transferId fileName fileType : String)
    (relativePath : Option String) (body : List Nat) : ServerState × UploadRes :=
  if transferId ∈ s.processedUploads then
    (s, { success := true, message := some "Transfer already completed" })
  else
    let s1 := { s with
      processedUploads := s.processedUploads.insert transferId
      fileTransfers := mapSet s.fileTransfers transferId
        { file := body
          fileName := fileName
          fileType := fileType
          relativePath := relativePath.getD fileName
          uploadedAt := now } }
    let s2 := { s1 with
      storage := (updateTransfer s1.storage now transferId
        { status := some "completed", progress := some 100 }).1 }
    let s3 :=
      if transferId ∈ s2.notifiedTransfers then s2
      else
        let s2' := { s2 with notifiedTransfers := s2.notifiedTransfers.insert transferId }
        match getTransfer s2'.storage transferId with
        | none => s2'
        | some transfer =>
          { s2' with outbox := (forward s2' transfer.receiverId (Msg.transferComplete transferId)) }
    (s3, { success := true })

/-- The download endpoint's response. -/
inductive DlRes where
  | forbidden
  | notFound
  | ok (fileType fileName : String) (bytes : List Nat)
  deriving DecidableEq, Repr

/-- Whether a download response is a `200`. -/
def DlRes.isOk : DlRes → Bool
  | .ok _ _ _ => true
  | _ => false

/-- `GET /api/transfer/:transferId/download`: `403` when the id is not in
`acceptedTransfers`, `404` when the relay buffer has no entry, `200` with the
stored payload otherwise.  The handler itself mutates nothing; the scheduled
cleanup is the separate `downloadExpiry` event. -/
def handleDownload (s : ServerState) (transferId : String) : DlRes :=
  if transferId ∈ s.acceptedTransfers then
    match mapGet s.fileTransfers transferId with
    | none => DlRes.notFound
    | some fileData => DlRes.ok fileData.fileType fileData.fileName fileData.file
  else DlRes.forbidden

/-- One hub step: dispatch an event against the current state at time `now`,
exactly following the corresponding handler in `routes.ts`. -/
def stepServer (now : Int) (s : ServerState) : Event → ServerState
  | .wsTransferOffer transferId fileName fileSize fileType senderId receiverId =>
    let storage' := (createTransfer s.storage now
      { transferId := transferId
        fileName := fileName
        fileSize := fileSize
        fileType := fileType
        senderId := senderId
        receiverId := receiverId
        status := some "pending"
        progress := some 0 }).1
    let s1 := { s with storage := storage' }
    { s1 with outbox := (forward s1 receiverId
        (Msg.transferOffer transferId fileName fileSize fileType senderId receiverId)) }
  | .wsTransferAnswer transferId accepted =>
    let result := updateTransfer s.storage now transferId
      { status := some (if accepted then "accepted" else "rejected") }
    let s1 := { s with
      storage := result.1
      acceptedTransfers :=
        if accepted then s.acceptedTransfers.insert transferId else s.acceptedTransfers }
    match result.2 with
    | none => s1
    | some transfer =>
      { s1 with outbox := (forward s1 transfer.senderId (Msg.transferAnswer transferId accepted)) }
  | .wsTransferProgress transferId progress =>
    let storage' := (updateTransfer s.storage now transferId
      { progress := some progress
        status := some (if progress ≥ 100 then "completed" else "transferring") }).1
    let s1 := { s with storage := storage' }
    match getTransfer s1.storage transferId with
    | none => s1
    | some transfer =>
      let s2 := { s1 with outbox := (forward s1 transfer.senderId (Msg.transferProgress transferId progress)) }
      { s2 with outbox := (forward s2 transfer.receiverId (Msg.transferProgress transferId progress)) }
  | .wsTransferComplete transferId =>
    let storage' := (updateTransfer s.storage now transferId
      { status := some "completed", progress := some 100 }).1
    let s1 := { s with storage := storage' }
    match getTransfer s1.storage transferId with
    | none => s1
    | some transfer =>
      let s2 := { s1 with outbox := (forward s1 transfer.senderId (Msg.transferComplete transferId)) }
      { s2 with outbox := (forward s2 transfer.receiverId (Msg.transferComplete transferId)) }
  | .wsTransferError transferId =>
    let storage' := (updateTransfer s.storage now transferId
      { status := some "failed" }).1
    let s1 := { s with storage := storage' }
    match getTransfer s1.storage transferId with
    | none => s1
    | some transfer =>
      let s2 := { s1 with outbox := (forward s1 transfer.senderId (Msg.transferError transferId)) }
      { s2 with outbox := (forward s2 transfer.receiverId (Msg.transferError transferId)) }
  | .uploadBody transferId fileName fileType relativePath body =>
    (handleUpload s now transferId fileName fileType relativePath body).1
  | .downloadReq _ => s
  | .processedExpiry transferId =>
    { s with processedUploads := s.processedUploads.erase transferId }
  | .notifiedExpiry transferId =>
    { s with notifiedTransfers := s.notifiedTransfers.erase transferId }
  | .downloadExpiry transferId =>
    { s with
      fileTransfers := mapDelete s.fileTransfers transferId
      acceptedTransfers := s.acceptedTransfers.erase transferId }

/-- Run the hub over a list of timestamped events. -/
def runServer (s : ServerState) : List (Int × Event) → ServerState
  | [] => s
  | (now, e) :: rest => runServer (stepServer now s e) rest

/-! ## Client chunking pipeline (`client/src/lib/webrtc-utils.ts`) -/

/-- A JS `File`: a name, a MIME type, and the payload bytes. -/
structure JsFile where
  name : String
  mime : String
  bytes : List Nat
  deriving DecidableEq, Repr

/-- `createFileChunks(file, chunkSize = 16384)`: `Math.ceil(size / chunkSize)`
slices, the `i`-th being `file.slice(i * chunkSize, min(i * chunkSize +
chunkSize, size))`. -/
def createFileChunks (file : List Nat) (chunkSize : Nat := 16384) : List (List Nat) :=
  let totalChunks := (file.length + chunkSize - 1) / chunkSize
  (List.range totalChunks).map (fun i =>
    let start := i * chunkSize
    let stop := min (start + chunkSize) file.length
    (file.drop start).take (stop - start))

/-- `reassembleFile(chunks, fileName, fileType)`: drop the `undefined` slots,
concatenate the rest in order into a `Blob`, and wrap it as a `File`. -/
def reassembleFile (chunks : List (Option (List Nat))) (fileName fileType : String) :
    JsFile :=
  let validChunks := chunks.filterMap id
  { name := fileName, mime := fileType, bytes := validChunks.flatten }

/-! ## Receiver chunk state machine (`use-webrtc.ts`, `handleFileChunk`) -/

/-- The receiver-side per-transfer state that `handleFileChunk` manipulates.
`savedFile` records the bytes handed to the save handler (the forced
download), `none` until that happens. -/
structure ReceiverState where
  fileName : String
  fileSize : Int
  fileType : String
  chunks : List (Option (List Nat))
  receivedChunks : Nat
  totalChunks : Nat
  status : String
  progress : Nat
  savedFile : Option (List Nat)
  deriving DecidableEq, Repr

/-- `Math.round(num / den)` for a nonnegative rational, as used for the
receiver's progress percentage. -/
def jsRound (num den : Nat) : Nat := (2 * num + den) / (2 * den)

/-- The `metadata` branch of `handleFileChunk`: allocate
`new Array(totalChunks)` (all slots empty) and reset the counters. -/
def handleMetadata (st : ReceiverState) (fileName : String) (fileSize : Int)
    (fileType : String) (totalChunks : Nat) : ReceiverState :=
  { st with
    fileName := fileName
    fileSize := fileSize
    fileType := fileType
    totalChunks := totalChunks
    chunks := List.replicate totalChunks none
    receivedChunks := 0 }

/-- The `chunk` branch of `handleFileChunk`: store the data at `index`,
increment the received counter, recompute progress; when the counter reaches
`totalChunks`, reassemble whatever slots are filled, hand the bytes to the
save handler, and mark the transfer `completed` with progress 100. -/
def handleChunkMsg (st : ReceiverState) (index : Nat) (data : List Nat) : ReceiverState :=
  let chunks := st.chunks.set index (some data)
  let receivedChunks := st.receivedChunks + 1
  let total := if st.totalChunks = 0 then 1 else st.totalChunks
  let progress := jsRound (receivedChunks * 100) total
  let st1 := { st with chunks := chunks, receivedChunks := receivedChunks, progress := progress }
  if receivedChunks = st.totalChunks then
    { st1 with
      savedFile := some (reassembleFile chunks st.fileName st.fileType).bytes
      status := "completed"
      progress := 100 }
  else st1

/-! ## Concrete states and runs used by counterexamples and witnesses -/

/-- A two-client hub run: devices `a` (sender) and `b` (receiver) connected. -/
def hubRun (events : List (Int × Event)) : ServerState :=
  runServer (ServerState.init ["a", "b"]) events

/-- An offer of transfer `t1` from `a` to `b`. -/
def offerEv : Int × Event := (0, Event.wsTransferOffer "t1" "f" 10 "text/plain" "a" "b")

/-- Offer, then a `transfer-complete`: `t1` reaches the terminal status
`completed`. -/
def runCompleted : List (Int × Event) := [offerEv, (1, Event.wsTransferComplete "t1")]

/-- Terminal `t1` followed by a further `transfer-progress 50`. -/
def runCompletedThenProgress : List (Int × Event) :=
  runCompleted ++ [(2, Event.wsTransferProgress "t1" 50)]

/-- Offer, then a rejection. -/
def runRejected : List (Int × Event) := [offerEv, (1, Event.wsTransferAnswer "t1" false)]

/-- Two offers with the same transfer id. -/
def runDoubleOffer : List (Int × Event) :=
  [offerEv, (1, Event.wsTransferOffer "t1" "f2" 20 "text/plain" "a" "b")]

/-- Offer, then two `transfer-complete` WebSocket messages for `t1`. -/
def runDoubleComplete : List (Int × Event) :=
  [offerEv, (1, Event.wsTransferComplete "t1"), (2, Event.wsTransferComplete "t1")]

/-- The relay fallback flow: offer, acceptance, upload. -/
def runRelay : List (Int × Event) :=
  [offerEv, (1, Event.wsTransferAnswer "t1" true),
   (2, Event.uploadBody "t1" "f" "text/plain" none [1, 2, 3])]

/-- The storage after `runCompleted`. -/
def terminalStore : Storage := (hubRun runCompleted).storage

/-- The stored record of `t1` after `runCompleted`. -/
def terminalRec : Transfer :=
  { id := 1, transferId := "t1", fileName := "f", fileSize := 10, fileType := "text/plain"
    senderId := "a", receiverId := "b", status := "completed", progress := 100
    createdAt := 0, completedAt := some 1 }

/-- The storage after `runRejected`. -/
def rejectedStore : Storage := (hubRun runRejected).storage

/-- The stored record of `t1` after `runRejected`. -/
def rejectedRec : Transfer :=
  { id := 1, transferId := "t1", fileName := "f", fileSize := 10, fileType := "text/plain"
    senderId := "a", receiverId := "b", status := "rejected", progress := 0
    createdAt := 0, completedAt := none }

/-! ## Concrete receiver states and registries for witnesses -/

/-- A receiver transfer just after the metadata message announced two
chunks. -/
def twoChunkReceiver : ReceiverState :=
  handleMetadata
    { fileName := "", fileSize := 0, fileType := "", chunks := [], receivedChunks := 0
      totalChunks := 0, status := "connecting", progress := 0, savedFile := none }
    "f" 2 "text/plain" 2

/-- The receiver after two chunk messages that both carry index 0 (a
duplicate): the received count reaches `totalChunks` while slot 1 is empty. -/
def twoChunkReceiverFinal : ReceiverState :=
  handleChunkMsg (handleChunkMsg twoChunkReceiver 0 [7]) 0 [8]

/-- A concrete registry entry for the C9 witness. -/
def exDevice : Device :=
  { id := 1, deviceId := "a", name := "Laptop A", type := "laptop"
    status := "available", lastSeen := 1000 }

/-- A concrete registry holding `exDevice` for the C9 witness. -/
def exRegistry : Storage :=
  { devices := [("a", exDevice)], transfers := [], deviceIdCounter := 2
    transferIdCounter := 1 }

/-! ## Event and message predicates for run-level reasoning -/

/-- Whether an event is a `transfer-answer(accepted=true)` for `tid`. -/
def isAcceptFor (tid : String) : Event → Bool
  | .wsTransferAnswer t a => t == tid && a
  | _ => false

/-- Whether an event is an upload-body receipt for `tid`. -/
def isUploadFor (tid : String) : Event → Bool
  | .uploadBody t _ _ _ _ => t == tid
  | _ => false

/-- Whether an event is a WebSocket `transfer-complete` for `tid`. -/
def isWsCompleteFor (tid : String) : Event → Bool
  | .wsTransferComplete t => t == tid
  | _ => false

/-- Whether an event is the expiry of `tid`'s notified flag. -/
def isNotifiedExpiryFor (tid : String) : Event → Bool
  | .notifiedExpiry t => t == tid
  | _ => false

/-- Whether a run contains a `transfer-answer(accepted=true)` for `tid`. -/
def hasAcceptAnswer (events : List (Int × Event)) (tid : String) : Bool :=
  events.any (fun p => isAcceptFor tid p.2)

/-- Whether a run contains a completed upload for `tid`. -/
def hasUpload (events : List (Int × Event)) (tid : String) : Bool :=
  events.any (fun p => isUploadFor tid p.2)

/-- Whether an outbox entry is a `transfer-complete` for `tid` (to anyone). -/
def isCompleteMsgFor (tid : String) (p : String × Msg) : Bool :=
  match p.2 with
  | .transferComplete t => t == tid
  | _ => false

/-- How many `transfer-complete` messages for `tid` the hub has pushed. -/
def countComplete (outbox : List (String × Msg)) (tid : String) : Nat :=
  outbox.countP (isCompleteMsgFor tid)

/-- How many `transfer-complete` messages for `tid` were pushed to a given
device. -/
def countCompleteTo (outbox : List (String × Msg)) (deviceId tid : String) : Nat :=
  outbox.countP (fun p =>
    p.1 == deviceId &&
    match p.2 with
    | .transferComplete t => t == tid
    | _ => false)

/-- The potential of the notified flag: 1 while a `transfer-complete` for
`tid` may still be emitted by the relay upload path, 0 afterwards. -/
def notifTok (s : ServerState) (tid : String) : Nat :=
  if tid ∈ s.notifiedTransfers then 0 else 1

/-! ## Association-list map lemmas -/

theorem mapGet_mapSet_self {α : Type} (m : List (String × α)) (k : String) (v : α) :
    mapGet (mapSet m k v) k = some v := by
  induction m with
  | nil => simp [mapGet, mapSet]
  | cons p rest ih =>
    by_cases h : p.1 = k
    · simp [mapGet, mapSet, h]
    · simp [mapGet, mapSet, h, ih]

theorem mapGet_mapSet_ne {α : Type} (m : List (String × α)) (k k' : String) (v : α)
    (h : k' ≠ k) : mapGet (mapSet m k v) k' = mapGet m k' := by
  induction m with
  | nil =>
    simp [mapSet, mapGet, show ¬k = k' from fun hh => h hh.symm]
  | cons p rest ih =>
    by_cases hp : p.1 = k
    · simp [mapSet, mapGet, hp, show ¬k = k' from fun hh => h hh.symm,
        show ¬p.1 = k' from fun hh => h (hh.symm.trans hp)]
    · by_cases hp' : p.1 = k'
      · simp [mapSet, mapGet, hp, hp', h]
      · simp [mapSet, mapGet, hp, hp', ih]

theorem isSome_mapGet_of_mapDelete {α : Type} (m : List (String × α)) (k k' : String)
    (h : (mapGet (mapDelete m k) k').isSome = true) : (mapGet m k').isSome = true := by
  induction m with
  | nil => simp [mapDelete, mapGet] at h
  | cons p rest ih =>
    by_cases hp : p.1 = k
    · rw [mapDelete, if_pos hp] at h
      by_cases hp' : p.1 = k'
      · simp [mapGet, hp']
      · simpa [mapGet, hp'] using h
    · rw [mapDelete, if_neg hp] at h
      by_cases hp' : p.1 = k'
      · simp [mapGet, hp']
      · rw [mapGet, if_neg hp'] at h ⊢
        exact ih h

/-! ## Chunking lemmas -/

theorem slice_take (f : List Nat) (s cs : Nat) :
    (f.drop s).take (min (s + cs) f.length - s) = (f.drop s).take cs := by
  rw [List.take_eq_take]
  simp only [List.length_drop]
  omega

theorem createFileChunks_nil (cs : Nat) (hcs : 0 < cs) : createFileChunks [] cs = [] := by
  unfold createFileChunks
  simp only [List.length_nil]
  rw [show 0 + cs - 1 = cs - 1 by omega, Nat.div_eq_of_lt (by omega)]
  rfl

theorem createFileChunks_cons (f : List Nat) (cs : Nat) (hcs : 0 < cs)
    (hf : f.length ≠ 0) :
    createFileChunks f cs = f.take cs :: createFileChunks (f.drop cs) cs := by
  have htc : (f.length + cs - 1) / cs = (f.length - 1) / cs + 1 := by
    rw [show f.length + cs - 1 = (f.length - 1) + cs by omega, Nat.add_div_right _ hcs]
  have htc' : ((f.drop cs).length + cs - 1) / cs = (f.length - 1) / cs := by
    rw [List.length_drop]
    rcases le_or_lt cs f.length with h | h
    · congr 1
      omega
    · rw [Nat.div_eq_of_lt (by omega), Nat.div_eq_of_lt (by omega)]
  simp only [createFileChunks, htc, htc', List.range_succ_eq_map, List.map_cons,
    List.map_map]
  congr 1
  · simp
  · apply List.map_congr_left
    intro i _
    simp only [Function.comp_apply, Nat.succ_eq_add_one]
    rw [slice_take, slice_take, List.drop_drop,
      show (i + 1) * cs = cs + i * cs by ring]

theorem createFileChunks_flatten_aux (cs : Nat) (hcs : 0 < cs) :
    ∀ (n : Nat) (f : List Nat), f.length ≤ n → (createFileChunks f cs).flatten = f := by
  intro n
  induction n with
  | zero =>
    intro f hf
    have : f = [] := List.eq_nil_of_length_eq_zero (by omega)
    subst this
    rw [createFileChunks_nil cs hcs]
    rfl
  | succ n ih =>
    intro f hf
    by_cases hlen : f.length = 0
    · have : f = [] := List.eq_nil_of_length_eq_zero hlen
      subst this
      rw [createFileChunks_nil cs hcs]
      rfl
    · rw [createFileChunks_cons f cs hcs hlen, List.flatten_cons,
        ih (f.drop cs) (by simp [List.length_drop]; omega)]
      exact List.take_append_drop cs f

/-- Slicing a file into chunks of any positive size and concatenating the
chunks in order restores the file. -/
theorem createFileChunks_flatten (f : List Nat) (cs : Nat) (hcs : 0 < cs) :
    (createFileChunks f cs).flatten = f :=
  createFileChunks_flatten_aux cs hcs f.length f le_rfl

theorem filterMap_id_map_some {α : Type} (l : List α) : (l.map some).filterMap id = l := by
  induction l with
  | nil => rfl
  | cons a l ih => simp [ih]

/-- C6 (confirmed): for every file, slicing it with `createFileChunks` into
16 KiB chunks and reassembling the full, in-order chunk array with
`reassembleFile` yields the original bytes, byte for byte. -/
theorem chunk_roundtrip (file : List Nat) (fileName fileType : String) :
    (reassembleFile ((createFileChunks file).map some) fileName fileType).bytes = file := by
  rw [reassembleFile, filterMap_id_map_some]
  exact createFileChunks_flatten file 16384 (by omega)

/-! ## C1 — terminal transfers and further updates -/

/-- C1 (counterexample): the claim says a transfer that reached a terminal
status refuses further updates.  In the run `offer; transfer-complete;
transfer-progress 50`, transfer `t1` is `completed` after the second event,
yet the third event changes its status to `transferring` and its progress to
50: the update is applied, not refused. -/
theorem terminal_update_not_refused_cex :
    (getTransfer (hubRun runCompleted).storage "t1").map Transfer.status = some "completed" ∧
    (getTransfer (hubRun runCompletedThenProgress).storage "t1").map Transfer.status =
      some "transferring" ∧
    (getTransfer (hubRun runCompletedThenProgress).storage "t1").map Transfer.progress =
      some 50 := by
  decide

/-- C1 (amended): `MemStorage.updateTransfer` never refuses a patch.  Even
when the stored transfer is in a terminal status (`completed`, `failed` or
`rejected`), a further `updateTransfer` applies the patch verbatim: the
updated record's status and progress are the patch's values, and the store
now holds that updated record. -/
theorem updateTransfer_applies_after_terminal (s : Storage) (now : Int) (tid : String)
    (upd : TransferPatch) (t : Transfer) (hget : getTransfer s tid = some t)
    (_hterm : t.status = "completed" ∨ t.status = "failed" ∨ t.status = "rejected") :
    (updateTransfer s now tid upd).2 =
      some { t with
        status := upd.status.getD t.status
        progress := upd.progress.getD t.progress
        completedAt :=
          if upd.status = some "completed" ∨ upd.status = some "failed" then some now
          else t.completedAt } ∧
    getTransfer (updateTransfer s now tid upd).1 tid = (updateTransfer s now tid upd).2 := by
  rw [getTransfer] at hget
  simp [updateTransfer, getTransfer, hget, mapGet_mapSet_self]

/-- Witness for the amended C1 theorem at a concrete terminal store. -/
theorem updateTransfer_applies_after_terminal_witness :
    (updateTransfer terminalStore 2 "t1" ⟨some "transferring", some 50⟩).2 =
      some { terminalRec with
        status := (some "transferring").getD terminalRec.status
        progress := (some (50 : Int)).getD terminalRec.progress
        completedAt :=
          if (some "transferring" : Option String) = some "completed" ∨
              (some "transferring" : Option String) = some "failed" then some 2
          else terminalRec.completedAt } ∧
    getTransfer (updateTransfer terminalStore 2 "t1" ⟨some "transferring", some 50⟩).1 "t1" =
      (updateTransfer terminalStore 2 "t1" ⟨some "transferring", some 50⟩).2 :=
  updateTransfer_applies_after_terminal terminalStore 2 "t1" ⟨some "transferring", some 50⟩
    terminalRec (by decide) (by decide)

/-! ## C4 — completed-at versus terminal status -/

/-- C4 (counterexample): the claim says completed-at is set iff the status is
terminal.  After `offer; transfer-answer(accepted=false)`, transfer `t1` has
the terminal status `rejected` but its completed-at is still null:
`updateTransfer` stamps completed-at only for `completed` and `failed`. -/
theorem completedAt_rejected_cex :
    (getTransfer (hubRun runRejected).storage "t1").map Transfer.status = some "rejected" ∧
    (getTransfer (hubRun runRejected).storage "t1").map Transfer.completedAt = some none := by
  decide

/-- C4 (amended): after an `updateTransfer`, the record's completed-at is
non-null iff the patch status is `completed` or `failed`, or completed-at was
already non-null; a transition to `rejected` does not set it. -/
theorem updateTransfer_completedAt_iff (s : Storage) (now : Int) (tid : String)
    (upd : TransferPatch) (t t' : Transfer) (hget : getTransfer s tid = some t)
    (hupd : (updateTransfer s now tid upd).2 = some t') :
    t'.completedAt ≠ none ↔
      (upd.status = some "completed" ∨ upd.status = some "failed" ∨ t.completedAt ≠ none) := by
  rw [getTransfer] at hget
  simp only [updateTransfer, hget, Option.some.injEq] at hupd
  subst hupd
  by_cases hc : upd.status = some "completed" ∨ upd.status = some "failed"
  · simp only [if_pos hc]
    exact iff_of_true (by simp) (by tauto)
  · push_neg at hc
    simp [if_neg, hc.1, hc.2]

/-- Witness for the amended C4 theorem: patching the rejected record with
status `failed` sets completed-at. -/
theorem updateTransfer_completedAt_iff_witness :
    ({ rejectedRec with status := "failed", completedAt := some 3 } : Transfer).completedAt ≠
        none ↔
      ((some "failed" : Option String) = some "completed" ∨
        (some "failed" : Option String) = some "failed" ∨
        rejectedRec.completedAt ≠ none) :=
  updateTransfer_completedAt_iff rejectedStore 3 "t1" ⟨some "failed", none⟩ rejectedRec
    { rejectedRec with status := "failed", completedAt := some 3 }
    (by decide) (by decide)

/-! ## C5 — creating a transfer whose id is in use -/

/-- C5 (counterexample): the claim says creating a transfer whose id is in
use fails and leaves the store unchanged.  After two `transfer-offer`
messages with id `t1`, the store holds the second record (file name `f2`,
internal id 2): the first record was overwritten and nothing failed. -/
theorem createTransfer_overwrite_cex :
    (getTransfer (hubRun runDoubleOffer).storage "t1").map Transfer.fileName = some "f2" ∧
    (getTransfer (hubRun runDoubleOffer).storage "t1").map Transfer.id = some 2 := by
  decide

/-- C5 (amended): `MemStorage.createTransfer` never fails: even when the
transfer id is already in use, it builds a fresh record (fresh internal id,
defaulted status and progress, null completed-at) and overwrites the store's
entry with it. -/
theorem createTransfer_overwrites (s : Storage) (now : Int) (ins : InsertTransfer)
    (_h : (getTransfer s ins.transferId).isSome = true) :
    getTransfer (createTransfer s now ins).1 ins.transferId =
      some (createTransfer s now ins).2 ∧
    (createTransfer s now ins).2 =
      { id := s.transferIdCounter
        transferId := ins.transferId
        fileName := ins.fileName
        fileSize := ins.fileSize
        fileType := ins.fileType
        senderId := ins.senderId
        receiverId := ins.receiverId
        status := ins.status.getD "pending"
        progress := ins.progress.getD 0
        createdAt := now
        completedAt := none } := by
  simp [createTransfer, getTransfer, mapGet_mapSet_self]

/-- Witness for the amended C5 theorem at the store that already holds `t1`. -/
theorem createTransfer_overwrites_witness :
    getTransfer
      (createTransfer terminalStore 5
        { transferId := "t1", fileName := "g", fileSize := 7, fileType := "text/plain"
          senderId := "a", receiverId := "b" }).1 "t1" =
      some (createTransfer terminalStore 5
        { transferId := "t1", fileName := "g", fileSize := 7, fileType := "text/plain"
          senderId := "a", receiverId := "b" }).2 :=
  (createTransfer_overwrites terminalStore 5
    { transferId := "t1", fileName := "g", fileSize := 7, fileType := "text/plain"
      senderId := "a", receiverId := "b" } (by decide)).1

/-! ## C7 — receiver reassembly and missing slots -/

/-- C7 (counterexample): the claim says a missing slot at reassembly time is
a fatal error moving the transfer to `failed`.  With `totalChunks = 2` and
two chunk messages both at index 0, the received count reaches 2, slot 1 is
still empty, yet the transfer completes and a file is produced from the one
present chunk. -/
theorem missing_slot_not_fatal_cex :
    twoChunkReceiverFinal.status = "completed" ∧
    twoChunkReceiverFinal.savedFile = some [8] ∧
    none ∈ twoChunkReceiverFinal.chunks := by
  decide

/-- C7 (amended): when the received-chunk count reaches `totalChunks`, the
receiver reassembles in index order but silently filters out any missing
slot: the transfer moves to `completed` with progress 100 and the saved
bytes are the concatenation of the filled slots only. -/
theorem handleChunkMsg_completion (st : ReceiverState) (index : Nat) (data : List Nat)
    (h : st.receivedChunks + 1 = st.totalChunks) :
    (handleChunkMsg st index data).status = "completed" ∧
    (handleChunkMsg st index data).progress = 100 ∧
    (handleChunkMsg st index data).savedFile =
      some (((st.chunks.set index (some data)).filterMap id).flatten) := by
  simp [handleChunkMsg, h, reassembleFile]

/-- Witness for the amended C7 theorem at the duplicate-index receiver
state. -/
theorem handleChunkMsg_completion_witness :
    (handleChunkMsg (handleChunkMsg twoChunkReceiver 0 [7]) 0 [8]).status = "completed" ∧
    (handleChunkMsg (handleChunkMsg twoChunkReceiver 0 [7]) 0 [8]).progress = 100 ∧
    (handleChunkMsg (handleChunkMsg twoChunkReceiver 0 [7]) 0 [8]).savedFile =
      some ((((handleChunkMsg twoChunkReceiver 0 [7]).chunks.set 0 (some [8])).filterMap
        id).flatten) :=
  handleChunkMsg_completion (handleChunkMsg twoChunkReceiver 0 [7]) 0 [8] (by decide)

/-! ## C8 — idempotent relay upload -/

/-- C8 (confirmed): when a transfer id is already in `processedUploads`, a
further POST to the upload endpoint responds success immediately, the server
state (relay buffer, transfer store, notification sets) is unchanged, and
the request body is never consumed: the response and resulting state do not
depend on it. -/
theorem handleUpload_idempotent (s : ServerState) (now : Int)
    (transferId fileName fileType : String) (relativePath : Option String)
    (body body' : List Nat) (h : transferId ∈ s.processedUploads) :
    (handleUpload s now transferId fileName fileType relativePath body).1 = s ∧
    (handleUpload s now transferId fileName fileType relativePath body).2 =
      { success := true, message := some "Transfer already completed" } ∧
    handleUpload s now transferId fileName fileType relativePath body =
      handleUpload s now transferId fileName fileType relativePath body' := by
  simp [handleUpload, h]

/-- Witness for the C8 theorem: the hub state after the relay flow has `t1`
processed, and a repeated upload with a different body changes nothing. -/
theorem handleUpload_idempotent_witness :
    (handleUpload (hubRun runRelay) 9 "t1" "f" "text/plain" none [9, 9]).1 =
      hubRun runRelay ∧
    (handleUpload (hubRun runRelay) 9 "t1" "f" "text/plain" none [9, 9]).2 =
      { success := true, message := some "Transfer already completed" } ∧
    handleUpload (hubRun runRelay) 9 "t1" "f" "text/plain" none [9, 9] =
      handleUpload (hubRun runRelay) 9 "t1" "f" "text/plain" none [] :=
  handleUpload_idempotent (hubRun runRelay) 9 "t1" "f" "text/plain" none [9, 9] []
    (by decide)

/-! ## C9 — the reachable-device listing -/

/-- C9 (confirmed): for every device d stored in the Presence Registry,
`getAvailableDevices` lists d iff d's last-seen is within the 300-second
liveness window of `now` (strictly less than 300 000 ms ago), d's stored
status is not `offline`, and d is not the excluded caller id. -/
theorem getAvailableDevices_mem_iff (s : Storage) (now : Int)
    (excludeDeviceId : Option String) (d : Device) (h : d ∈ mapValues s.devices) :
    d ∈ getAvailableDevices s now excludeDeviceId ↔
      (now - d.lastSeen < 300000 ∧ d.status ≠ "offline" ∧
        some d.deviceId ≠ excludeDeviceId) := by
  simp only [getAvailableDevices, List.mem_filter, h, true_and, Bool.and_eq_true,
    decide_eq_true_eq]
  constructor
  · rintro ⟨⟨h1, h2⟩, h3⟩
    exact ⟨by omega, h2, h1⟩
  · rintro ⟨h1, h2, h3⟩
    exact ⟨⟨h3, h2⟩, by omega⟩

/-- Witness for the C9 theorem at a one-device registry. -/
theorem getAvailableDevices_mem_iff_witness :
    exDevice ∈ getAvailableDevices exRegistry 2000 none ↔
      (2000 - exDevice.lastSeen < 300000 ∧ exDevice.status ≠ "offline" ∧
        some exDevice.deviceId ≠ none) :=
  getAvailableDevices_mem_iff exRegistry 2000 none exDevice (by decide)

/-! ## C10 — the frame of `setDeviceOffline` -/

/-- C10 (confirmed): `setDeviceOffline d` changes at most the status field of
d's record (to `offline`): the transfers map and both counters are
untouched, d's record keeps every other field, every other key of the
registry maps to its old record, and when d is absent the whole storage is
unchanged. -/
theorem setDeviceOffline_frame (s : Storage) (did : String) :
    (setDeviceOffline s did).transfers = s.transfers ∧
    (setDeviceOffline s did).deviceIdCounter = s.deviceIdCounter ∧
    (setDeviceOffline s did).transferIdCounter = s.transferIdCounter ∧
    mapGet (setDeviceOffline s did).devices did =
      (mapGet s.devices did).map (fun d => { d with status := "offline" }) ∧
    (∀ k, k ≠ did → mapGet (setDeviceOffline s did).devices k = mapGet s.devices k) ∧
    (mapGet s.devices did = none → setDeviceOffline s did = s) := by
  cases h : mapGet s.devices did with
  | none => simp [setDeviceOffline, h]
  | some d =>
    have hs : setDeviceOffline s did =
        { s with devices := mapSet s.devices did { d with status := "offline" } } := by
      simp only [setDeviceOffline, h]
    rw [hs]
    refine ⟨rfl, rfl, rfl, ?_, ?_, ?_⟩
    · rw [mapGet_mapSet_self]
      rfl
    · intro k hk
      exact mapGet_mapSet_ne _ _ _ _ hk
    · intro hnone
      exact absurd hnone (by simp)

/-- Witness for the C10 theorem: marking `a` offline in the one-device
registry leaves the key `b` (absent) and the transfers map untouched. -/
theorem setDeviceOffline_frame_witness :
    (setDeviceOffline exRegistry "a").transfers = exRegistry.transfers ∧
    mapGet (setDeviceOffline exRegistry "a").devices "b" = mapGet exRegistry.devices "b" :=
  ⟨(setDeviceOffline_frame exRegistry "a").1,
    (setDeviceOffline_frame exRegistry "a").2.2.2.2.1 "b" (by decide)⟩

/-! ## Field characterizations of `stepServer` -/

theorem stepServer_acceptedTransfers (now : Int) (s : ServerState) (e : Event) :
    (stepServer now s e).acceptedTransfers =
      match e with
      | .wsTransferAnswer t accepted =>
          if accepted then s.acceptedTransfers.insert t else s.acceptedTransfers
      | .downloadExpiry t => s.acceptedTransfers.erase t
      | _ => s.acceptedTransfers := by
  cases e with
  | wsTransferAnswer t accepted =>
    simp only [stepServer]
    split <;> rfl
  | wsTransferProgress t p =>
    simp only [stepServer]
    split <;> rfl
  | wsTransferComplete t =>
    simp only [stepServer]
    split <;> rfl
  | wsTransferError t =>
    simp only [stepServer]
    split <;> rfl
  | uploadBody t fn ft rp body =>
    simp only [stepServer, handleUpload]
    repeat' split
    all_goals rfl
  | _ => rfl

theorem stepServer_fileTransfers (now : Int) (s : ServerState) (e : Event) :
    (stepServer now s e).fileTransfers =
      match e with
      | .uploadBody t fn ft rp body =>
          if t ∈ s.processedUploads then s.fileTransfers
          else mapSet s.fileTransfers t
            { file := body, fileName := fn, fileType := ft
              relativePath := rp.getD fn, uploadedAt := now }
      | .downloadExpiry t => mapDelete s.fileTransfers t
      | _ => s.fileTransfers := by
  cases e with
  | wsTransferAnswer t accepted =>
    simp only [stepServer]
    split <;> rfl
  | wsTransferProgress t p =>
    simp only [stepServer]
    split <;> rfl
  | wsTransferComplete t =>
    simp only [stepServer]
    split <;> rfl
  | wsTransferError t =>
    simp only [stepServer]
    split <;> rfl
  | uploadBody t fn ft rp body =>
    simp only [stepServer, handleUpload]
    repeat' split
    all_goals rfl
  | _ => rfl

theorem stepServer_notifiedTransfers (now : Int) (s : ServerState) (e : Event) :
    (stepServer now s e).notifiedTransfers =
      match e with
      | .uploadBody t _ _ _ _ =>
          if t ∈ s.processedUploads then s.notifiedTransfers
          else if t ∈ s.notifiedTransfers then s.notifiedTransfers
          else s.notifiedTransfers.insert t
      | .notifiedExpiry t => s.notifiedTransfers.erase t
      | _ => s.notifiedTransfers := by
  cases e with
  | wsTransferAnswer t accepted =>
    simp only [stepServer]
    split <;> rfl
  | wsTransferProgress t p =>
    simp only [stepServer]
    split <;> rfl
  | wsTransferComplete t =>
    simp only [stepServer]
    split <;> rfl
  | wsTransferError t =>
    simp only [stepServer]
    split <;> rfl
  | uploadBody t fn ft rp body =>
    simp only [stepServer, handleUpload]
    repeat' split
    all_goals rfl
  | _ => rfl

/-! ## Provenance of the acceptance flag and the relay buffer -/

theorem accepted_of_step (now : Int) (s : ServerState) (e : Event) (tid : String)
    (h : tid ∈ (stepServer now s e).acceptedTransfers) :
    tid ∈ s.acceptedTransfers ∨ isAcceptFor tid e = true := by
  rw [stepServer_acceptedTransfers] at h
  cases e with
  | wsTransferAnswer t accepted =>
    cases accepted with
    | false => exact Or.inl (by simpa using h)
    | true =>
      have h' : tid ∈ s.acceptedTransfers.insert t := h
      rw [List.mem_insert_iff] at h'
      rcases h' with h' | h'
      · subst h'
        exact Or.inr (by simp [isAcceptFor])
      · exact Or.inl h'
  | downloadExpiry t => exact Or.inl (List.mem_of_mem_erase h)
  | wsTransferOffer t fn fs ft sid rid => exact Or.inl h
  | wsTransferProgress t p => exact Or.inl h
  | wsTransferComplete t => exact Or.inl h
  | wsTransferError t => exact Or.inl h
  | uploadBody t fn ft rp body => exact Or.inl h
  | downloadReq t => exact Or.inl h
  | processedExpiry t => exact Or.inl h
  | notifiedExpiry t => exact Or.inl h

theorem accepted_of_run (events : List (Int × Event)) :
    ∀ (s : ServerState) (tid : String),
      tid ∈ (runServer s events).acceptedTransfers →
      tid ∈ s.acceptedTransfers ∨ hasAcceptAnswer events tid = true := by
  induction events with
  | nil =>
    intro s tid h
    exact Or.inl h
  | cons p rest ih =>
    intro s tid h
    rw [runServer] at h
    rcases ih (stepServer p.1 s p.2) tid h with h' | h'
    · rcases accepted_of_step p.1 s p.2 tid h' with h'' | h''
      · exact Or.inl h''
      · exact Or.inr (by simp [hasAcceptAnswer, h''])
    · exact Or.inr (by simp [hasAcceptAnswer] at h' ⊢; tauto)

theorem buffer_of_step (now : Int) (s : ServerState) (e : Event) (tid : String)
    (h : (mapGet (stepServer now s e).fileTransfers tid).isSome = true) :
    (mapGet s.fileTransfers tid).isSome = true ∨ isUploadFor tid e = true := by
  rw [stepServer_fileTransfers] at h
  cases e with
  | uploadBody t fn ft rp body =>
    have h' : (mapGet
        (if t ∈ s.processedUploads then s.fileTransfers
         else mapSet s.fileTransfers t
           { file := body, fileName := fn, fileType := ft
             relativePath := rp.getD fn, uploadedAt := now }) tid).isSome = true := h
    by_cases hp : t ∈ s.processedUploads
    · rw [if_pos hp] at h'
      exact Or.inl h'
    · rw [if_neg hp] at h'
      by_cases ht : tid = t
      · subst ht
        exact Or.inr (by simp [isUploadFor])
      · rw [mapGet_mapSet_ne _ _ _ _ ht] at h'
        exact Or.inl h'
  | downloadExpiry t => exact Or.inl (isSome_mapGet_of_mapDelete _ _ _ h)
  | wsTransferOffer t fn fs ft sid rid => exact Or.inl h
  | wsTransferAnswer t accepted => exact Or.inl h
  | wsTransferProgress t p => exact Or.inl h
  | wsTransferComplete t => exact Or.inl h
  | wsTransferError t => exact Or.inl h
  | downloadReq t => exact Or.inl h
  | processedExpiry t => exact Or.inl h
  | notifiedExpiry t => exact Or.inl h

theorem buffer_of_run (events : List (Int × Event)) :
    ∀ (s : ServerState) (tid : String),
      (mapGet (runServer s events).fileTransfers tid).isSome = true →
      (mapGet s.fileTransfers tid).isSome = true ∨ hasUpload events tid = true := by
  induction events with
  | nil =>
    intro s tid h
    exact Or.inl h
  | cons p rest ih =>
    intro s tid h
    rw [runServer] at h
    rcases ih (stepServer p.1 s p.2) tid h with h' | h'
    · rcases buffer_of_step p.1 s p.2 tid h' with h'' | h''
      · exact Or.inl h''
      · exact Or.inr (by simp [hasUpload, h''])
    · exact Or.inr (by simp [hasUpload] at h' ⊢; tauto)

/-! ## C2 — download authorization -/

/-- C2 (confirmed): for every run of the hub from a fresh state, the download
endpoint answers `403` whenever the transfer id is not flagged accepted,
`404` whenever it is flagged accepted but the relay buffer has no entry, and
it answers `200` only if the run contains an earlier
`transfer-answer(accepted=true)` for the id and a completed upload of the
id. -/
theorem download_authorization (conn : List String) (events : List (Int × Event))
    (tid : String) :
    (tid ∉ (runServer (ServerState.init conn) events).acceptedTransfers →
      handleDownload (runServer (ServerState.init conn) events) tid = DlRes.forbidden) ∧
    (tid ∈ (runServer (ServerState.init conn) events).acceptedTransfers →
      mapGet (runServer (ServerState.init conn) events).fileTransfers tid = none →
      handleDownload (runServer (ServerState.init conn) events) tid = DlRes.notFound) ∧
    ((handleDownload (runServer (ServerState.init conn) events) tid).isOk = true →
      hasAcceptAnswer events tid = true ∧ hasUpload events tid = true) := by
  refine ⟨?_, ?_, ?_⟩
  · intro h
    simp [handleDownload, h]
  · intro h1 h2
    simp [handleDownload, h1, h2]
  · intro hok
    by_cases hacc : tid ∈ (runServer (ServerState.init conn) events).acceptedTransfers
    · constructor
      · rcases accepted_of_run events (ServerState.init conn) tid hacc with h | h
        · simp [ServerState.init] at h
        · exact h
      · cases hbuf : mapGet (runServer (ServerState.init conn) events).fileTransfers tid with
        | none => simp [handleDownload, hacc, hbuf, DlRes.isOk] at hok
        | some entry =>
          rcases buffer_of_run events (ServerState.init conn) tid (by simp [hbuf]) with h | h
          · simp [ServerState.init, mapGet] at h
          · exact h
    · simp [handleDownload, hacc, DlRes.isOk] at hok

/-- Witness for the C2 theorem on the concrete relay run: the download is a
`200`, and the run indeed contains the acceptance and the upload. -/
theorem download_authorization_witness :
    hasAcceptAnswer runRelay "t1" = true ∧ hasUpload runRelay "t1" = true :=
  (download_authorization ["a", "b"] runRelay "t1").2.2 (by decide)

/-! ## C3 — duplication of transfer-complete notices -/

theorem countComplete_forward (s : ServerState) (d : String) (m : Msg) (tid : String) :
    countComplete (forward s d m) tid =
      countComplete s.outbox tid +
        (if d ∈ s.connected then (if isCompleteMsgFor tid (d, m) = true then 1 else 0)
         else 0) := by
  rw [forward, countComplete, countComplete]
  split_ifs with hc hm
  · simp [List.countP_append, List.countP_cons, hm]
  · simp [List.countP_append, List.countP_cons, hm]
  · simp

theorem step_complete_bound (now : Int) (s : ServerState) (e : Event) (tid : String)
    (h1 : isWsCompleteFor tid e = false) (h2 : isNotifiedExpiryFor tid e = false) :
    countComplete (stepServer now s e).outbox tid + notifTok (stepServer now s e) tid ≤
      countComplete s.outbox tid + notifTok s tid := by
  cases e with
  | wsTransferOffer t fn fs ft sid rid =>
    simp only [stepServer]
    simp [countComplete_forward, notifTok, isCompleteMsgFor]
  | wsTransferAnswer t accepted =>
    simp only [stepServer]
    split
    · simp [notifTok]
    · simp [countComplete_forward, notifTok, isCompleteMsgFor]
  | wsTransferProgress t p =>
    simp only [stepServer]
    split
    · simp [notifTok]
    · simp [countComplete_forward, notifTok, isCompleteMsgFor]
  | wsTransferComplete t =>
    have ht : (t == tid) = false := by simpa [isWsCompleteFor] using h1
    simp only [stepServer]
    split
    · simp [notifTok]
    · simp [countComplete_forward, notifTok, isCompleteMsgFor, ht]
  | wsTransferError t =>
    simp only [stepServer]
    split
    · simp [notifTok]
    · simp [countComplete_forward, notifTok, isCompleteMsgFor]
  | uploadBody t fn ft rp body =>
    simp only [stepServer, handleUpload]
    split_ifs with hp hn
    · exact Nat.le.refl
    · exact Nat.le.refl
    · split
      · simp only [notifTok]
        simp [List.mem_insert_iff]
        split_ifs <;> first | omega | tauto
      · by_cases htid : tid = t
        · subst htid
          simp [countComplete_forward, notifTok, isCompleteMsgFor, List.mem_insert_iff, hn]
          split_ifs <;> omega
        · simp [countComplete_forward, notifTok, isCompleteMsgFor, List.mem_insert_iff, htid,
            show (t == tid) = false by simp [Ne.symm htid]]
  | downloadReq t => exact Nat.le.refl
  | processedExpiry t =>
    simp only [stepServer]
    simp [notifTok]
  | notifiedExpiry t =>
    have ht : ¬t = tid := by simpa [isNotifiedExpiryFor] using h2
    simp only [stepServer]
    simp [notifTok, List.mem_erase_of_ne (show tid ≠ t from fun hh => ht hh.symm)]
  | downloadExpiry t =>
    simp only [stepServer]
    simp [notifTok]

theorem run_complete_bound (events : List (Int × Event)) :
    ∀ (s : ServerState) (tid : String),
      (∀ p ∈ events, isWsCompleteFor tid p.2 = false ∧ isNotifiedExpiryFor tid p.2 = false) →
      countComplete (runServer s events).outbox tid + notifTok (runServer s events) tid ≤
        countComplete s.outbox tid + notifTok s tid := by
  induction events with
  | nil =>
    intro s tid _
    exact Nat.le.refl
  | cons p rest ih =>
    intro s tid h
    rw [runServer]
    calc countComplete (runServer (stepServer p.1 s p.2) rest).outbox tid +
          notifTok (runServer (stepServer p.1 s p.2) rest) tid
        ≤ countComplete (stepServer p.1 s p.2).outbox tid +
            notifTok (stepServer p.1 s p.2) tid :=
          ih (stepServer p.1 s p.2) tid (fun q hq => h q (List.mem_cons_of_mem p hq))
      _ ≤ countComplete s.outbox tid + notifTok s tid :=
          step_complete_bound p.1 s p.2 tid (h p (List.mem_cons_self p rest)).1
            (h p (List.mem_cons_self p rest)).2

/-- C3 (counterexample): the claim says at most one `transfer-complete`
reaches the receiver per transfer.  In the run `offer; transfer-complete;
transfer-complete`, the WebSocket handler forwards each message to the
receiver `b` without de-duplication, so two completion notices reach `b`. -/
theorem duplicate_complete_cex :
    ¬(countCompleteTo (hubRun runDoubleComplete).outbox "b" "t1" ≤ 1) := by
  decide

/-- C3 (amended): de-duplication holds only on the relay upload path.  In
every run from a fresh hub state that contains no WebSocket
`transfer-complete` message for t and no expiry of t's notified flag, at
most one `transfer-complete` for t is pushed to clients, no matter how many
relay uploads of t are processed.  (The WebSocket `transfer-complete`
handler itself forwards every message to both endpoints, which is what the
counterexample exploits.) -/
theorem relay_complete_at_most_once (conn : List String) (events : List (Int × Event))
    (tid : String)
    (h : ∀ p ∈ events, isWsCompleteFor tid p.2 = false ∧
      isNotifiedExpiryFor tid p.2 = false) :
    countComplete (runServer (ServerState.init conn) events).outbox tid ≤ 1 := by
  have hb := run_complete_bound events (ServerState.init conn) tid h
  have h0 : countComplete (ServerState.init conn).outbox tid = 0 := by
    simp [countComplete, ServerState.init]
  have h1 : notifTok (ServerState.init conn) tid = 1 := by
    simp [notifTok, ServerState.init]
  omega

/-- Witness for the amended C3 theorem on the concrete relay run (which ends
with exactly one completion notice in the outbox). -/
theorem relay_complete_at_most_once_witness :
    countComplete (runServer (ServerState.init ["a", "b"]) runRelay).outbox "t1" ≤ 1 :=
  relay_complete_at_most_once ["a", "b"] runRelay "t1" (by decide)

end WebTransfer
